import Mathlib

/-!
Verification of the token_router provider-gateway core: a shallow embedding of
the model registry, the smart router, the chat-completions orchestration and
the per-provider translation layers, with theorems checking the specification's
claims against the embedded code.

Conventions: Python floats carrying money/confidence values are embedded as
`Rat`; Python ints as `Nat`/`Int`; `None`-able values as `Option`; raised
exceptions as `Except`/error values.  Python's stable `list.sort(key=...)` is
embedded as `List.insertionSort` with the `key a ≤ key b` relation (insertion
sort as defined in Mathlib is stable, so it computes the same list as any
stable sort for a total preorder).
-/

namespace TokenRouter

/-! ### String helpers (Python `in`, `.lower()`, `.strip()`, lexicographic compare) -/

/-- Is `pat` a prefix of `l` (char lists)? -/
def isPrefixChars : List Char → List Char → Bool
  | [], _ => true
  | _ :: _, [] => false
  | a :: as, b :: bs => a == b && isPrefixChars as bs

/-- Does `pat` occur as a contiguous substring of the char list? (Python `pat in s`.) -/
def containsChars (pat : List Char) : List Char → Bool
  | [] => pat.isEmpty
  | c :: t => isPrefixChars pat (c :: t) || containsChars pat t

/-- Python `pat in s` on strings. -/
def strContains (s pat : String) : Bool :=
  containsChars pat.data s.data

/-- Python `s.lower()` (ASCII-adequate). -/
def lowerStr (s : String) : String :=
  ⟨s.data.map Char.toLower⟩

/-- Python `s.strip()`: drop whitespace from both ends. -/
def stripChars (l : List Char) : List Char :=
  ((l.dropWhile Char.isWhitespace).reverse.dropWhile Char.isWhitespace).reverse

/-- Python `s.strip()` on strings. -/
def stripStr (s : String) : String :=
  ⟨stripChars s.data⟩

/-- Python code-point lexicographic `s <= t` on char lists. -/
def charListLe : List Char → List Char → Bool
  | [], _ => true
  | _ :: _, [] => false
  | a :: as, b :: bs =>
    if a.val < b.val then true
    else if b.val < a.val then false
    else charListLe as bs

/-! ### Canonical data model (token_router/models.py) -/

/-- ChatMessage from models.py, restricted to string content. -/
structure ChatMessage where
  role : String
  content : String
deriving DecidableEq

/-- Usage from models.py; pydantic defaults every field to 0. -/
structure Usage where
  prompt_tokens : Int
  completion_tokens : Int
  total_tokens : Int
deriving DecidableEq

/-! ### Kernel-computable rational arithmetic

`Rat.mul`, `Rat.add` and `Rat.inv` are `@[irreducible]` in Batteries, which
stops `decide` from evaluating money amounts.  `Rat.divInt` does reduce, so
the embedding computes with these helpers, proved equal to the field
operations below (`ratMul_eq` etc.). -/

/-- Product of rationals, computed through `Rat.divInt`. -/
def ratMul (a b : Rat) : Rat :=
  Rat.divInt (a.num * b.num) ((a.den : Int) * (b.den : Int))

/-- Sum of rationals, computed through `Rat.divInt`. -/
def ratAdd (a b : Rat) : Rat :=
  Rat.divInt (a.num * (b.den : Int) + b.num * (a.den : Int)) ((a.den : Int) * (b.den : Int))

/-- Quotient of rationals (0 for a zero divisor, like `Rat.div`), computed
through `Rat.divInt`. -/
def ratDiv (a b : Rat) : Rat :=
  Rat.divInt (a.num * (b.den : Int)) ((a.den : Int) * b.num)

/-! ### Pricing and catalog (providers/base.py, providers/registry.py) -/

/-- TokenPricing from providers/base.py: USD per 1M input / output tokens. -/
structure TokenPricing where
  input_cost : Rat
  output_cost : Rat
deriving DecidableEq

/-- TokenPricing.estimate from providers/base.py:
`(input_tokens * input_cost + output_tokens * output_cost) / 1_000_000`. -/
def TokenPricing.estimate (p : TokenPricing) (input_tokens output_tokens : Nat) : Rat :=
  ratDiv (ratAdd (ratMul (input_tokens : Rat) p.input_cost)
                 (ratMul (output_tokens : Rat) p.output_cost)) 1000000

/-- ModelInfo from providers/base.py. -/
structure ModelInfo where
  id : String
  name : String
  provider : String
  max_tokens : Nat
  pricing : TokenPricing
  quality_tier : Nat
deriving DecidableEq

/-- MODELS catalog from providers/registry.py, in dict insertion order.
Float rates are written as the exact rationals of the source literals. -/
def MODELS : List (String × ModelInfo) := [
  ("openai/gpt-4o",
    ⟨"openai/gpt-4o", "GPT-4o", "openai", 16384, ⟨mkRat 5 2, 10⟩, 1⟩),
  ("openai/gpt-4o-mini",
    ⟨"openai/gpt-4o-mini", "GPT-4o Mini", "openai", 16384, ⟨mkRat 3 20, mkRat 3 5⟩, 2⟩),
  ("anthropic/claude-opus",
    ⟨"anthropic/claude-opus", "Claude Opus 4", "anthropic", 8192, ⟨15, 75⟩, 1⟩),
  ("anthropic/claude-sonnet",
    ⟨"anthropic/claude-sonnet", "Claude Sonnet 4", "anthropic", 8192, ⟨3, 15⟩, 1⟩),
  ("anthropic/claude-haiku",
    ⟨"anthropic/claude-haiku", "Claude Haiku 3.5", "anthropic", 8192, ⟨mkRat 4 5, 4⟩, 2⟩),
  ("groq/llama-3.3-70b",
    ⟨"groq/llama-3.3-70b", "Llama 3.3 70B", "groq", 8192, ⟨mkRat 59 100, mkRat 79 100⟩, 2⟩),
  ("groq/mixtral-8x7b",
    ⟨"groq/mixtral-8x7b", "Mixtral 8x7B", "groq", 32768, ⟨mkRat 6 25, mkRat 6 25⟩, 3⟩),
  ("google/gemini-2.5-pro",
    ⟨"google/gemini-2.5-pro", "Gemini 2.5 Pro", "google", 8192, ⟨mkRat 5 4, 5⟩, 1⟩),
  ("google/gemini-2.5-flash",
    ⟨"google/gemini-2.5-flash", "Gemini 2.5 Flash", "google", 8192, ⟨mkRat 3 20, mkRat 3 5⟩, 2⟩),
  ("deepseek/deepseek-v3",
    ⟨"deepseek/deepseek-v3", "DeepSeek V3", "deepseek", 8192, ⟨mkRat 27 100, mkRat 11 10⟩, 2⟩),
  ("deepseek/deepseek-r1",
    ⟨"deepseek/deepseek-r1", "DeepSeek R1", "deepseek", 8192, ⟨mkRat 11 20, mkRat 219 100⟩, 1⟩)]

/-- Python `MODELS.get(model_id)`. -/
def findModel (model_id : String) : Option ModelInfo :=
  (MODELS.find? (fun p => p.1 == model_id)).map (fun p => p.2)

/-- ModelRegistry.estimate_cost from providers/registry.py (0 for unknown ids). -/
def estimate_cost (model_id : String) (input_tokens output_tokens : Nat) : Rat :=
  match findModel model_id with
  | none => 0
  | some m => m.pricing.estimate input_tokens output_tokens

/-- Lexicographic `<=` on the `(quality_tier, cost, model_id)` triples that
`select_by_budget` sorts (Python default tuple comparison). -/
def tripleLeB (a b : Nat × Rat × String) : Bool :=
  if a.1 < b.1 then true
  else if b.1 < a.1 then false
  else if a.2.1 < b.2.1 then true
  else if b.2.1 < a.2.1 then false
  else charListLe a.2.2.data b.2.2.data

/-- Relation form of `tripleLeB` for `List.insertionSort`. -/
def tripleRel (a b : Nat × Rat × String) : Prop := tripleLeB a b = true

instance : DecidableRel tripleRel :=
  fun a b => inferInstanceAs (Decidable (tripleLeB a b = true))

/-- ModelRegistry.select_by_budget from providers/registry.py: models whose
estimated cost fits the budget, as `(tier, cost, id)` triples sorted
lexicographically, projected back to ids.  The call sites use the default
token counts (1000, 500). -/
def select_by_budget (budget_usd : Rat) (input_tokens output_tokens : Nat) : List String :=
  let affordable := MODELS.filterMap (fun p =>
    let cost := p.2.pricing.estimate input_tokens output_tokens
    if cost ≤ budget_usd then some (p.2.quality_tier, cost, p.1) else none)
  (List.insertionSort tripleRel affordable).map (fun t => t.2.2)

/-! ### Difficulty and fallback tables (providers/registry.py)

`DIFFICULTY_ROUTING` is mutable process state: `route` sorts the list objects
it holds in place, so it is threaded through `route` as explicit state. -/

/-- The DIFFICULTY_ROUTING table as mutable state. -/
structure RouterTables where
  simple : List String
  medium : List String
  complex : List String
deriving DecidableEq

/-- DIFFICULTY_ROUTING's initial (source-literal) contents. -/
def tables0 : RouterTables :=
  ⟨["groq/llama-3.3-70b", "deepseek/deepseek-v3", "groq/mixtral-8x7b"],
   ["openai/gpt-4o-mini", "anthropic/claude-haiku", "google/gemini-2.5-flash"],
   ["openai/gpt-4o", "anthropic/claude-sonnet", "google/gemini-2.5-pro"]⟩

/-- ModelRegistry.get_models_by_difficulty: unknown keys default to "medium". -/
def get_models_by_difficulty (t : RouterTables) (difficulty : String) : List String :=
  if difficulty = "simple" then t.simple
  else if difficulty = "complex" then t.complex
  else t.medium

/-- Write back the (in-place sorted) bucket that `get_models_by_difficulty`
aliases: the same key dispatch, so unknown keys write the "medium" bucket. -/
def set_bucket (t : RouterTables) (difficulty : String) (l : List String) : RouterTables :=
  if difficulty = "simple" then { t with simple := l }
  else if difficulty = "complex" then { t with complex := l }
  else { t with medium := l }

/-- FALLBACK_CHAINS / ModelRegistry.get_fallback_chain: unknown strategies
default to "balanced". -/
def get_fallback_chain (strategy : String) : List String :=
  if strategy = "quality" then
    ["anthropic/claude-sonnet", "openai/gpt-4o", "google/gemini-2.5-pro", "deepseek/deepseek-r1"]
  else if strategy = "economy" then
    ["groq/mixtral-8x7b", "groq/llama-3.3-70b", "deepseek/deepseek-v3", "google/gemini-2.5-flash"]
  else
    ["openai/gpt-4o-mini", "anthropic/claude-haiku", "groq/llama-3.3-70b", "deepseek/deepseek-v3"]

/-! ### Smart router (token_router/router.py) -/

/-- SIMPLE_KEYWORDS from router.py (set literal; order is irrelevant because
only "does any keyword match" is observable). -/
def SIMPLE_KEYWORDS : List String :=
  ["translate", "summarize", "summary", "explain", "define", "what is",
   "hello", "hi", "hey", "thanks", "help", "faq", "list", "how to"]

/-- COMPLEX_KEYWORDS from router.py. -/
def COMPLEX_KEYWORDS : List String :=
  ["architecture", "design", "optimize", "refactor", "debug", "security",
   "implement complex", "multi-step", "reasoning", "prove", "analyze deeply",
   "compare and contrast", "trade-off", "system design"]

/-- router._classify_difficulty: complex keywords first, then simple, else medium. -/
def classify_difficulty (text : String) : String :=
  let lower := lowerStr text
  if COMPLEX_KEYWORDS.any (fun kw => strContains lower kw) then "complex"
  else if SIMPLE_KEYWORDS.any (fun kw => strContains lower kw) then "simple"
  else "medium"

/-- router._extract_user_text: the most recent user-role message, else "". -/
def extract_user_text (messages : List ChatMessage) : String :=
  match messages.reverse.find? (fun m => m.role == "user") with
  | some m => m.content
  | none => ""

/-- INTENT_DIFFICULTY dict from router.py; `.get(intent, "medium")`. -/
def intentDifficulty (intent : String) : String :=
  if intent = "research" then "complex"
  else if intent = "analyze" then "complex"
  else if intent = "implement" then "medium"
  else "medium"

/-- RoutingDecision from router.py. -/
structure RoutingDecision where
  difficulty : String
  intent : String
  confidence : Rat
  recommended_models : List String
  fallback_chain : List String
deriving DecidableEq

/-- Sort key of `prefer == "speed"`: 0 if "groq" occurs in the id, else 1. -/
def speedKey (m : String) : Nat :=
  if strContains m "groq" then 0 else 1

/-- Sort key of `prefer == "quality"`: the catalog quality tier, else 9. -/
def qualityKey (m : String) : Nat :=
  match findModel m with
  | some i => i.quality_tier
  | none => 9

/-- Sort key of `prefer == "cost"`: estimated cost at (1000, 500), else 999. -/
def costKey (m : String) : Rat :=
  match findModel m with
  | some i => i.pricing.estimate 1000 500
  | none => 999

/-- Key comparison relation for the "speed" sort. -/
def speedRel (a b : String) : Prop := speedKey a ≤ speedKey b

/-- Key comparison relation for the "quality" sort. -/
def qualityRel (a b : String) : Prop := qualityKey a ≤ qualityKey b

/-- Key comparison relation for the "cost" sort. -/
def costRel (a b : String) : Prop := costKey a ≤ costKey b

instance : DecidableRel speedRel :=
  fun a b => inferInstanceAs (Decidable (speedKey a ≤ speedKey b))

instance : DecidableRel qualityRel :=
  fun a b => inferInstanceAs (Decidable (qualityKey a ≤ qualityKey b))

instance : DecidableRel costRel :=
  fun a b => inferInstanceAs (Decidable (costKey a ≤ costKey b))

instance : IsTotal String speedRel := ⟨fun a b => Nat.le_total (speedKey a) (speedKey b)⟩

instance : IsTrans String speedRel := ⟨fun _ _ _ h h' => Nat.le_trans h h'⟩

instance : IsTotal String qualityRel := ⟨fun a b => Nat.le_total (qualityKey a) (qualityKey b)⟩

instance : IsTrans String qualityRel := ⟨fun _ _ _ h h' => Nat.le_trans h h'⟩

instance : IsTotal String costRel := ⟨fun a b => le_total (costKey a) (costKey b)⟩

instance : IsTrans String costRel := ⟨fun _ _ _ h h' => le_trans h h'⟩

/-- The `prefer`-driven reordering of candidates in route (router.py lines
100-106), as a stable sort by the corresponding key. -/
def applyPrefer (prefer : Option String) (candidates : List String) : List String :=
  if prefer = some "speed" then List.insertionSort speedRel candidates
  else if prefer = some "quality" then List.insertionSort qualityRel candidates
  else if prefer = some "cost" then List.insertionSort costRel candidates
  else candidates

/-- Whether the `prefer` branch runs `candidates.sort(...)` (which mutates the
DIFFICULTY_ROUTING bucket in place when no budget filter rebound `candidates`). -/
def sortsInPlace (prefer : Option String) : Bool :=
  prefer == some "speed" || prefer == some "quality" || prefer == some "cost"

/-- The difficulty computed by route: intent table when confidence ≥ 0.6,
keyword classification otherwise.  `ir` is the intent detector's result
(`none` models the detector being unavailable / raising). -/
def route_difficulty (messages : List ChatMessage) (ir : Option (String × Rat)) : String :=
  let p := ir.getD ("implement", mkRat 1 2)
  if p.2 < mkRat 3 5 then classify_difficulty (extract_user_text messages)
  else intentDifficulty p.1

/-- The fallback-chain strategy selection in route (router.py lines 109-112). -/
def route_fallback (prefer : Option String) (difficulty : String) : List String :=
  if prefer = some "quality" ∨ prefer = none then
    get_fallback_chain (if difficulty = "complex" then "quality" else "balanced")
  else get_fallback_chain "economy"

/-- route from router.py.  The DIFFICULTY_ROUTING state is threaded explicitly:
the returned tables reflect the in-place `candidates.sort` that happens when
`prefer` sorts and no `budget_cap` rebound `candidates` to a fresh list. -/
def route (tables : RouterTables) (messages : List ChatMessage) (budget_cap : Option Rat)
    (prefer : Option String) (ir : Option (String × Rat)) :
    RoutingDecision × RouterTables :=
  let intent := (ir.getD ("implement", mkRat 1 2)).1
  let confidence := (ir.getD ("implement", mkRat 1 2)).2
  let difficulty := route_difficulty messages ir
  let bucket := get_models_by_difficulty tables difficulty
  match budget_cap with
  | some cap =>
    let affordable := select_by_budget cap 1000 500
    let inter := bucket.filter (fun m => affordable.contains m)
    let base := if inter.isEmpty then affordable.take 3 else inter
    (⟨difficulty, intent, confidence, applyPrefer prefer base,
      route_fallback prefer difficulty⟩, tables)
  | none =>
    let cands := applyPrefer prefer bucket
    (⟨difficulty, intent, confidence, cands, route_fallback prefer difficulty⟩,
     if sortsInPlace prefer then set_bucket tables difficulty cands else tables)

/-! ### Chat-completions orchestration (endpoints/chat.py)

The `stream=False` path of `chat_completions` plus `_try_fallback`.  Network
dispatch is abstracted as an oracle `dispatch : String → Except ChatErr α`
(model id ↦ outcome of `provider.chat_completion`); provider registration as
`registered : String → Bool`.  Alongside the HTTP-level result, the embedding
returns the list of model ids actually dispatched, in order, so that "no
upstream call was made" and "at most one dispatch per candidate" are
observable. -/

/-- The exception classes that `chat_completions` distinguishes: `ValueError`
(missing API key), an already-formed `HTTPException`, and any other exception
from a dispatch (e.g. `httpx.HTTPStatusError`), carrying the upstream status
and the spec's retryable classification as ghost data. -/
inductive ChatErr where
  | valueError (msg : String)
  | httpException (status : Nat) (msg : String)
  | providerError (status : Nat) (retryable : Bool) (msg : String)
deriving DecidableEq

/-- An HTTP error response produced by the endpoint. -/
structure HttpError where
  status : Nat
  msg : String
deriving DecidableEq

/-- ChatCompletionRequest fields that drive the orchestration control flow. -/
structure ChatReq where
  model : String
  messages : List ChatMessage
  budget_cap : Option Rat
  auto_route : Bool
deriving DecidableEq

/-- Python `model_id.split("/")[0]`: the segment before the first slash. -/
def provider_segment (model_id : String) : String :=
  ⟨model_id.data.takeWhile (fun c => !(c == '/'))⟩

/-- ModelRegistry.get_provider's name resolution (providers/registry.py lines
87-89): `None` when the id has no slash or an empty (falsy) provider segment. -/
def get_provider_name (model_id : String) : Option String :=
  if strContains model_id "/" then
    let p := provider_segment model_id
    if p = "" then none else some p
  else none

/-- Does `registry.get_provider(model_id)` return an adapter? -/
def isRegisteredModel (registered : String → Bool) (model_id : String) : Bool :=
  match get_provider_name model_id with
  | some p => registered p
  | none => false

/-- The model the endpoint dispatches to (chat.py lines 60-63): the routing
decision's first recommendation when auto-routing, with the hard-coded
default "groq/llama-3.3-70b" when the recommendation list is empty. -/
def chosen_model_id (tables : RouterTables) (ir : Option (String × Rat)) (req : ChatReq) :
    String :=
  if req.auto_route || req.model == "auto" then
    match (route tables req.messages req.budget_cap none ir).1.recommended_models with
    | [] => "groq/llama-3.3-70b"
    | m :: _ => m
  else req.model

/-- The loop body of `_try_fallback` (chat.py lines 188-207): walk the chain,
skip the model that just failed and models without a registered adapter,
dispatch each remaining candidate once, stop at the first success; every
exception from a candidate is swallowed (`except Exception: continue`).
Returns the result and the ids dispatched. -/
def fallback_walk {α : Type} (dispatch : String → Except ChatErr α)
    (registered : String → Bool) (failed : String) :
    List String → Option α × List String
  | [] => (none, [])
  | m :: rest =>
    if m == failed then fallback_walk dispatch registered failed rest
    else if isRegisteredModel registered m then
      match dispatch m with
      | Except.ok r => (some r, [m])
      | Except.error _ =>
        let x := fallback_walk dispatch registered failed rest
        (x.1, m :: x.2)
    else fallback_walk dispatch registered failed rest

/-- Reference walker with no skipping: dispatch every listed candidate once,
in order, until the first success.  Used to state what `fallback_walk` does
to the chain once ineligible entries are filtered out. -/
def walk_each {α : Type} (dispatch : String → Except ChatErr α) :
    List String → Option α × List String
  | [] => (none, [])
  | m :: rest =>
    match dispatch m with
    | Except.ok r => (some r, [m])
    | Except.error _ =>
      let x := walk_each dispatch rest
      (x.1, m :: x.2)

/-- `_try_fallback` (chat.py lines 180-209): re-route (with `prefer=None`) and
walk the decision's fallback chain. -/
def try_fallback {α : Type} (dispatch : String → Except ChatErr α)
    (registered : String → Bool) (tables : RouterTables) (ir : Option (String × Rat))
    (failed : String) (messages : List ChatMessage) (budget_cap : Option Rat) :
    Option α × List String :=
  fallback_walk dispatch registered failed
    (route tables messages budget_cap none ir).1.fallback_chain

/-- The `stream=False` path of `chat_completions` (chat.py lines 52-146):
resolve the (possibly auto-routed) model, 400 if its provider is not
registered, dispatch, then map `ValueError` to 401, re-raise `HTTPException`,
and walk the fallback chain for every other exception, surfacing the original
error as a 502 when the chain is exhausted.  Second component: ids dispatched. -/
def chat_completions {α : Type} (dispatch : String → Except ChatErr α)
    (registered : String → Bool) (tables : RouterTables) (ir : Option (String × Rat))
    (req : ChatReq) : Except HttpError α × List String :=
  let model_id := chosen_model_id tables ir req
  if isRegisteredModel registered model_id then
    match dispatch model_id with
    | Except.ok r => (Except.ok r, [model_id])
    | Except.error (ChatErr.valueError m) => (Except.error ⟨401, m⟩, [model_id])
    | Except.error (ChatErr.httpException s m) => (Except.error ⟨s, m⟩, [model_id])
    | Except.error (ChatErr.providerError _ _ m) =>
      let fb := try_fallback dispatch registered tables ir model_id req.messages req.budget_cap
      match fb.1 with
      | some r => (Except.ok r, model_id :: fb.2)
      | none => (Except.error ⟨502, m⟩, model_id :: fb.2)
  else (Except.error ⟨400, "provider_unavailable"⟩, [])

/-! ### Anthropic request translation (providers/anthropic_adapter.py) -/

/-- Loop body of `AnthropicAdapter._convert_messages` (lines 74-86): every
system message overwrites `system_text`; every other message is appended to
the native array as `(role, content)`. -/
def convert_messages_loop (system_text : Option String) (api_messages : List (String × String)) :
    List ChatMessage → Option String × List (String × String)
  | [] => (system_text, api_messages)
  | m :: rest =>
    if m.role == "system" then
      convert_messages_loop (some m.content) api_messages rest
    else
      convert_messages_loop system_text (api_messages ++ [(m.role, m.content)]) rest

/-- `AnthropicAdapter._convert_messages`. -/
def convert_messages (messages : List ChatMessage) : Option String × List (String × String) :=
  convert_messages_loop none [] messages

/-- Modelled from the spec's sentence "the first system-role message is lifted
into a separate `system` field; remaining messages pass through as
`{role, content}`", for comparison with `convert_messages`. -/
def spec_convert_messages (messages : List ChatMessage) :
    Option String × List (String × String) :=
  ((messages.find? (fun m => m.role == "system")).map (fun m => m.content),
   (messages.eraseP (fun m => m.role == "system")).map (fun m => (m.role, m.content)))

/-! ### Usage construction per adapter (C2) -/

/-- The `usage` object of an Anthropic response body: `data.get("usage", {})`
with `.get("input_tokens", 0)` / `.get("output_tokens", 0)`. -/
structure AnthropicUsageData where
  input_tokens : Option Int
  output_tokens : Option Int
deriving DecidableEq

/-- Usage built by `AnthropicAdapter.chat_completion` (lines 134-138):
`total_tokens` is computed as the sum of the two upstream counts. -/
def anthropic_usage (u : Option AnthropicUsageData) : Usage :=
  let i := (u.bind (fun d => d.input_tokens)).getD 0
  let o := (u.bind (fun d => d.output_tokens)).getD 0
  ⟨i, o, i + o⟩

/-- The `usageMetadata` object of a Gemini response body. -/
structure GoogleUsageMetadata where
  promptTokenCount : Option Int
  candidatesTokenCount : Option Int
  totalTokenCount : Option Int
deriving DecidableEq

/-- Usage built by `GoogleAdapter.chat_completion` (lines 126-130): all three
fields, including `total_tokens`, are copied from the upstream body. -/
def google_usage (u : Option GoogleUsageMetadata) : Usage :=
  ⟨(u.bind (fun d => d.promptTokenCount)).getD 0,
   (u.bind (fun d => d.candidatesTokenCount)).getD 0,
   (u.bind (fun d => d.totalTokenCount)).getD 0⟩

/-- The `usage` object of an OpenAI-shaped (Groq) response body. -/
structure GroqUsageData where
  prompt_tokens : Option Int
  completion_tokens : Option Int
  total_tokens : Option Int
deriving DecidableEq

/-- Usage built by `GroqAdapter.chat_completion` (line 101):
`Usage(**(data.get("usage", {})))`, pydantic defaulting each missing field to
0 — `total_tokens` is whatever the upstream body said. -/
def groq_usage (u : Option GroqUsageData) : Usage :=
  ⟨(u.bind (fun d => d.prompt_tokens)).getD 0,
   (u.bind (fun d => d.completion_tokens)).getD 0,
   (u.bind (fun d => d.total_tokens)).getD 0⟩

/-! ### Streaming line translation (C7)

Each adapter's stream loop reads upstream SSE lines.  A line is embedded
after the point where the adapter has (a) checked the `"data: "` prefix and
(b) attempted `json.loads` on the rest: `notData` lines lack the prefix,
`dataLine raw parsed` has `raw` after the prefix and `parsed = none` exactly
when `json.loads` raised `JSONDecodeError`. -/

/-- A parsed Groq stream object, abstracted to the field the adapter rewrites
(`obj["model"]`) plus the rest of the payload. -/
structure GroqObj where
  modelField : String
  payload : String
deriving DecidableEq

/-- An upstream line as seen by `GroqAdapter.chat_completion_stream`. -/
inductive GroqLine where
  | notData (raw : String)
  | dataLine (raw : String) (parsed : Option GroqObj)
deriving DecidableEq

/-- What the Groq stream loop relays for one line. -/
inductive GroqOut where
  | done
  | raw (s : String)
  | event (o : GroqObj)
deriving DecidableEq

/-- `GroqAdapter.chat_completion_stream` loop (lines 128-139): non-`data:`
lines are dropped; `[DONE]` is relayed and breaks the loop; a parsed object
is relayed with its model field rewritten; a line that fails `json.loads`
is relayed verbatim (`yield f"data: \x7bchunk\x7d\n\n"`). -/
def groq_process (model : String) : List GroqLine → List GroqOut
  | [] => []
  | GroqLine.notData _ :: rest => groq_process model rest
  | GroqLine.dataLine raw parsed :: rest =>
    if stripStr raw == "[DONE]" then [GroqOut.done]
    else match parsed with
      | some o => GroqOut.event ⟨"groq/" ++ model, o.payload⟩ :: groq_process model rest
      | none => GroqOut.raw raw :: groq_process model rest

/-- An upstream line as seen by `AnthropicAdapter.chat_completion_stream`:
a parsed event is abstracted to `event.get("type", "")` and
`event.get("delta", {}).get("text", "")`. -/
inductive AnthLine where
  | notData (raw : String)
  | dataMalformed (raw : String)
  | dataEvent (eventType : String) (deltaText : String)
deriving DecidableEq

/-- What the Anthropic stream loop relays for one line. -/
inductive AnthOut where
  | delta (text : String)
  | stop
  | done
deriving DecidableEq

/-- `AnthropicAdapter.chat_completion_stream` loop (lines 171-212): non-`data:`
lines and lines failing `json.loads` are skipped (`continue`);
`content_block_delta` relays a delta chunk when the text is non-empty;
`message_stop` relays a stop chunk plus `[DONE]` (without breaking the loop);
other event types are ignored. -/
def anth_process : List AnthLine → List AnthOut
  | [] => []
  | AnthLine.notData _ :: rest => anth_process rest
  | AnthLine.dataMalformed _ :: rest => anth_process rest
  | AnthLine.dataEvent t txt :: rest =>
    (if t == "content_block_delta" then
      (if txt == "" then [] else [AnthOut.delta txt])
     else if t == "message_stop" then [AnthOut.stop, AnthOut.done]
     else []) ++ anth_process rest

/-- A candidate object in a Gemini stream event: the concatenated
`parts[].text` and the optional `finishReason`. -/
structure GoogCandidate where
  text : String
  finishReason : Option String
deriving DecidableEq

/-- An upstream line as seen by `GoogleAdapter.chat_completion_stream`. -/
inductive GoogLine where
  | notData (raw : String)
  | dataMalformed (raw : String)
  | dataEvent (candidates : List GoogCandidate)
deriving DecidableEq

/-- What the Google stream loop relays for one line. -/
inductive GoogOut where
  | delta (text : String)
  | stop
  | done
deriving DecidableEq

/-- `GoogleAdapter.chat_completion_stream` loop (lines 162-207): non-`data:`
lines, lines failing `json.loads`, and events with no candidates are skipped;
a non-empty concatenated text yields a delta chunk; `finishReason == "STOP"`
additionally yields a stop chunk plus `[DONE]` (no break). -/
def goog_process : List GoogLine → List GoogOut
  | [] => []
  | GoogLine.notData _ :: rest => goog_process rest
  | GoogLine.dataMalformed _ :: rest => goog_process rest
  | GoogLine.dataEvent cands :: rest =>
    match cands with
    | [] => goog_process rest
    | c :: _ =>
      ((if c.text == "" then [] else [GoogOut.delta c.text]) ++
       (if c.finishReason == some "STOP" then [GoogOut.stop, GoogOut.done] else [])) ++
      goog_process rest

/-! ## Theorems -/

/-! ### Bridges between the kernel-computable arithmetic and the field operations -/

/-- `ratMul` is multiplication. -/
theorem ratMul_eq (a b : Rat) : ratMul a b = a * b := by
  rw [ratMul, Rat.divInt_eq_div]
  push_cast
  rw [← div_mul_div_comm, Rat.num_div_den, Rat.num_div_den]

/-- `ratAdd` is addition. -/
theorem ratAdd_eq (a b : Rat) : ratAdd a b = a + b := by
  have ha : ((a.den : Rat)) ≠ 0 := by
    exact_mod_cast a.den_nz
  have hb : ((b.den : Rat)) ≠ 0 := by
    exact_mod_cast b.den_nz
  conv_rhs => rw [← Rat.num_div_den a, ← Rat.num_div_den b]
  rw [ratAdd, Rat.divInt_eq_div, div_add_div _ _ ha hb]
  push_cast
  ring

/-- `ratDiv` is division. -/
theorem ratDiv_eq (a b : Rat) : ratDiv a b = a / b := by
  by_cases hb : b = 0
  · subst hb
    rw [ratDiv]
    norm_num
  · have hbn : ((b.num : Rat)) ≠ 0 := by
      exact_mod_cast Rat.num_ne_zero.2 hb
    have ha : ((a.den : Rat)) ≠ 0 := by
      exact_mod_cast a.den_nz
    have hd : ((b.den : Rat)) ≠ 0 := by
      exact_mod_cast b.den_nz
    conv_rhs => rw [← Rat.num_div_den a, ← Rat.num_div_den b]
    rw [ratDiv, Rat.divInt_eq_div]
    push_cast
    field_simp

/-- `TokenPricing.estimate` written with the field operations. -/
theorem TokenPricing.estimate_eq (p : TokenPricing) (i o : Nat) :
    p.estimate i o = ((i : Rat) * p.input_cost + (o : Rat) * p.output_cost) / 1000000 := by
  rw [TokenPricing.estimate, ratMul_eq, ratMul_eq, ratAdd_eq, ratDiv_eq]

/-- Every catalog entry has non-negative input and output rates. -/
theorem models_rates_nonneg :
    ∀ p ∈ MODELS, 0 ≤ p.2.pricing.input_cost ∧ 0 ≤ p.2.pricing.output_cost := by
  decide

/-! ### C8 -/

/-- C8: for every catalog model id, `estimate_cost id i o` equals
`(i·input_rate + o·output_rate) / 1_000_000` with that model's catalog rates,
and is monotonically non-decreasing in both token counts. -/
theorem claim8_estimate_cost_formula_mono (model_id : String) (info : ModelInfo)
    (h : findModel model_id = some info)
    (i o i' o' : Nat) (hi : i ≤ i') (ho : o ≤ o') :
    estimate_cost model_id i o
        = ((i : Rat) * info.pricing.input_cost + (o : Rat) * info.pricing.output_cost) / 1000000
      ∧ estimate_cost model_id i o ≤ estimate_cost model_id i' o' := by
  obtain ⟨p, hp, hpi⟩ : ∃ p, MODELS.find? (fun q => q.1 == model_id) = some p ∧ p.2 = info := by
    rcases Option.map_eq_some'.1 h with ⟨p, hp, hpi⟩
    exact ⟨p, hp, hpi⟩
  have hmem : p ∈ MODELS := List.mem_of_find?_eq_some hp
  have hrates := models_rates_nonneg p hmem
  have hin : (0 : Rat) ≤ info.pricing.input_cost := hpi ▸ hrates.1
  have hout : (0 : Rat) ≤ info.pricing.output_cost := hpi ▸ hrates.2
  have hval : ∀ a b : Nat, estimate_cost model_id a b
      = ((a : Rat) * info.pricing.input_cost + (b : Rat) * info.pricing.output_cost) / 1000000 := by
    intro a b
    simp only [estimate_cost, h]
    rw [TokenPricing.estimate_eq]
  refine ⟨hval i o, ?_⟩
  rw [hval i o, hval i' o']
  have h1 : ((i : Rat)) ≤ (i' : Rat) := by exact_mod_cast hi
  have h2 : ((o : Rat)) ≤ (o' : Rat) := by exact_mod_cast ho
  gcongr

/-- C8 witness: the formula and monotonicity at the Llama 3.3 70B entry with
concrete token counts. -/
theorem claim8_estimate_cost_formula_mono_witness :
    estimate_cost "groq/llama-3.3-70b" 1000 500
        = ((1000 : Rat) * (mkRat 59 100) + (500 : Rat) * (mkRat 79 100)) / 1000000
      ∧ estimate_cost "groq/llama-3.3-70b" 1000 500
          ≤ estimate_cost "groq/llama-3.3-70b" 2000 700 :=
  claim8_estimate_cost_formula_mono "groq/llama-3.3-70b"
    ⟨"groq/llama-3.3-70b", "Llama 3.3 70B", "groq", 8192, ⟨mkRat 59 100, mkRat 79 100⟩, 2⟩
    (by decide) 1000 500 2000 700 (by decide) (by decide)

/-! ### C2 -/

/-- C2 counterexample: a Google response body whose `usageMetadata` reports
`promptTokenCount = 1`, `candidatesTokenCount = 2`, `totalTokenCount = 999`
produces a usage violating `total = prompt + completion`, because the adapter
copies `totalTokenCount` instead of summing. -/
theorem claim2_counterexample :
    ¬ ((google_usage (some ⟨some 1, some 2, some 999⟩)).total_tokens
        = (google_usage (some ⟨some 1, some 2, some 999⟩)).prompt_tokens
          + (google_usage (some ⟨some 1, some 2, some 999⟩)).completion_tokens) := by
  decide

/-- C2 amended: the Anthropic adapter always satisfies
`total_tokens = prompt_tokens + completion_tokens` (it computes the sum);
the Google and Groq adapters copy the upstream total, so their responses
satisfy the invariant exactly when the upstream body's reported total equals
the sum of its reported parts. -/
theorem claim2_usage_invariant_per_adapter :
    (∀ u, (anthropic_usage u).total_tokens
        = (anthropic_usage u).prompt_tokens + (anthropic_usage u).completion_tokens)
    ∧ (∀ u, ((google_usage u).total_tokens
          = (google_usage u).prompt_tokens + (google_usage u).completion_tokens)
        ↔ (u.bind (fun d => d.totalTokenCount)).getD 0
            = (u.bind (fun d => d.promptTokenCount)).getD 0
              + (u.bind (fun d => d.candidatesTokenCount)).getD 0)
    ∧ (∀ u, ((groq_usage u).total_tokens
          = (groq_usage u).prompt_tokens + (groq_usage u).completion_tokens)
        ↔ (u.bind (fun d => d.total_tokens)).getD 0
            = (u.bind (fun d => d.prompt_tokens)).getD 0
              + (u.bind (fun d => d.completion_tokens)).getD 0) :=
  ⟨fun _ => rfl, fun _ => Iff.rfl, fun _ => Iff.rfl⟩

/-! ### C3 -/

/-- The loop of `_convert_messages`, with the accumulators generalised: the
lifted system text is the most recent system message's content (falling back
to the inbound accumulator) and the native array gets exactly the non-system
messages, in order. -/
theorem convert_messages_loop_spec (msgs : List ChatMessage) :
    ∀ sys acc, convert_messages_loop sys acc msgs
      = (match msgs.reverse.find? (fun m => m.role == "system") with
         | some m => some m.content
         | none => sys,
        acc ++ (msgs.filter (fun m => !(m.role == "system"))).map
          (fun m => (m.role, m.content))) := by
  induction msgs with
  | nil =>
    intro sys acc
    simp [convert_messages_loop]
  | cons m rest ih =>
    intro sys acc
    rw [List.reverse_cons, List.find?_append]
    by_cases hr : m.role == "system"
    · rw [convert_messages_loop, if_pos hr, ih]
      cases hfind : rest.reverse.find? (fun m => m.role == "system") with
      | some x => simp [Option.or, hfind, List.filter_cons, hr]
      | none => simp [Option.or, hfind, List.filter_cons, hr]
    · rw [convert_messages_loop, if_neg hr, ih]
      cases hfind : rest.reverse.find? (fun m => m.role == "system") with
      | some x => simp [Option.or, hfind, List.filter_cons, hr]
      | none => simp [Option.or, hfind, List.filter_cons, hr]

/-- C3 counterexample: on `[system "A", system "B"]` the adapter lifts the
second system message ("B"), not the first, and drops both from the native
array — unlike the spec's first-lifted/rest-pass-through translation, which
would lift "A" and keep `("system", "B")` in the array. -/
theorem claim3_counterexample :
    convert_messages [⟨"system", "A"⟩, ⟨"system", "B"⟩]
      ≠ spec_convert_messages [⟨"system", "A"⟩, ⟨"system", "B"⟩] := by
  decide

/-- C3 amended: `_convert_messages` lifts the content of the LAST system-role
message (later system messages overwrite earlier ones), removes every
system-role message from the native array, and passes every non-system
message through, in order, as `(role, content)`. -/
theorem claim3_convert_messages_last_system (messages : List ChatMessage) :
    convert_messages messages
      = ((messages.reverse.find? (fun m => m.role == "system")).map (fun m => m.content),
         (messages.filter (fun m => !(m.role == "system"))).map
           (fun m => (m.role, m.content))) := by
  rw [convert_messages, convert_messages_loop_spec]
  cases hfind : messages.reverse.find? (fun m => m.role == "system") with
  | some x => simp [hfind]
  | none => simp [hfind]

/-! ### C7 -/

/-- C7 counterexample: the Groq stream loop, fed a `data:` line whose payload
"oops" fails `json.loads` followed by the `[DONE]` sentinel, relays the
malformed payload verbatim as a chunk — the claim says a malformed line is
skipped and produces no relayed chunk, which would give `[done]` alone. -/
theorem claim7_counterexample :
    groq_process "m" [GroqLine.dataLine "oops" none, GroqLine.dataLine "[DONE]" none]
      = [GroqOut.raw "oops", GroqOut.done]
    ∧ [GroqOut.raw "oops", GroqOut.done] ≠ [GroqOut.done] := by
  constructor <;> decide

/-- C7 amended: a stream line that fails `json.loads` never terminates or
fails the stream and later lines are still processed, but only the Anthropic
and Google adapters skip it; the Groq adapter relays the malformed payload
verbatim as a data line. -/
theorem claim7_malformed_line_handling :
    (∀ raw rest, anth_process (AnthLine.dataMalformed raw :: rest) = anth_process rest)
    ∧ (∀ raw rest, goog_process (GoogLine.dataMalformed raw :: rest) = goog_process rest)
    ∧ (∀ model raw rest, (stripStr raw == "[DONE]") = false →
        groq_process model (GroqLine.dataLine raw none :: rest)
          = GroqOut.raw raw :: groq_process model rest) := by
  refine ⟨fun _ _ => rfl, fun _ _ => rfl, fun model raw rest h => ?_⟩
  simp [groq_process, h]

/-- C7 witness: the Groq clause at the concrete malformed payload "oops". -/
theorem claim7_malformed_line_handling_witness :
    (stripStr "oops" == "[DONE]") = false
    ∧ groq_process "llama" [GroqLine.dataLine "oops" none] = [GroqOut.raw "oops"] := by
  refine ⟨by decide, ?_⟩
  have h := claim7_malformed_line_handling.2.2 "llama" "oops" [] (by decide)
  simpa using h

/-! ### C1 -/

/-- C1 counterexample: with `budget_cap = 0` no catalog model is affordable,
and `route` returns an EMPTY `recommended_models` — the fallback is
`affordable[:3]` of the empty affordable list, not "the 3 globally cheapest
models", so the degraded-but-never-empty guarantee fails. -/
theorem claim1_counterexample :
    (route tables0 [] (some 0) none none).1.recommended_models = [] := by
  decide

/-- C1 amended: when no model of the difficulty bucket is affordable under the
cap, `route` falls back to the first 3 entries of `select_by_budget` — the
affordable models ordered by (quality_tier, cost, id), not by global
cheapness — which can have fewer than 3 entries and is empty when no catalog
model fits the cap at the default (1000, 500) token estimate. -/
theorem claim1_budget_fallback (messages : List ChatMessage) (cap : Rat)
    (prefer : Option String) (ir : Option (String × Rat))
    (h : (get_models_by_difficulty tables0 (route_difficulty messages ir)).filter
          (fun m => (select_by_budget cap 1000 500).contains m) = []) :
    (route tables0 messages (some cap) prefer ir).1.recommended_models
      = applyPrefer prefer ((select_by_budget cap 1000 500).take 3) := by
  simp only [route]
  rw [h]
  rfl

/-- C1 witness: at cap 0.0004 only Mixtral is affordable and the medium bucket
has no affordable member, so the branch fires and yields the one-element
affordable prefix. -/
theorem claim1_budget_fallback_witness :
    (get_models_by_difficulty tables0 (route_difficulty [⟨"user","abc"⟩] none)).filter
        (fun m => (select_by_budget (mkRat 1 2500) 1000 500).contains m) = []
    ∧ (route tables0 [⟨"user","abc"⟩] (some (mkRat 1 2500)) none none).1.recommended_models
        = applyPrefer none ((select_by_budget (mkRat 1 2500) 1000 500).take 3) :=
  ⟨by decide, claim1_budget_fallback [⟨"user","abc"⟩] (mkRat 1 2500) none none (by decide)⟩

/-! ### C10 -/

/-- C10: when auto-routing is requested and the routing decision's
recommendation list is empty, the endpoint does not fail: it dispatches the
hard-coded default "groq/llama-3.3-70b" and returns that dispatch's result. -/
theorem claim10_auto_route_default (tables : RouterTables) (ir : Option (String × Rat))
    (req : ChatReq) {α : Type} (dispatch : String → Except ChatErr α)
    (registered : String → Bool) (r : α)
    (hauto : (req.auto_route || req.model == "auto") = true)
    (hempty : (route tables req.messages req.budget_cap none ir).1.recommended_models = [])
    (hreg : registered "groq" = true)
    (hdisp : dispatch "groq/llama-3.3-70b" = Except.ok r) :
    chosen_model_id tables ir req = "groq/llama-3.3-70b"
    ∧ chat_completions dispatch registered tables ir req
        = (Except.ok r, ["groq/llama-3.3-70b"]) := by
  have hc : chosen_model_id tables ir req = "groq/llama-3.3-70b" := by
    rw [chosen_model_id]
    simp only [hauto, if_true]
    simp [hempty]
  have h2 : isRegisteredModel registered "groq/llama-3.3-70b" = registered "groq" := rfl
  refine ⟨hc, ?_⟩
  simp only [chat_completions, hc, h2, hreg, if_true, hdisp]

/-- C10 witness: a request whose model is the literal "auto" (with the
`auto_route` flag UNSET, exercising the `model == "auto"` trigger) and
`budget_cap = 0` (so the recommendation list is empty) dispatches the default
model and succeeds. -/
theorem claim10_auto_route_default_witness :
    (route tables0 ([] : List ChatMessage) (some 0) none none).1.recommended_models = []
    ∧ chosen_model_id tables0 none ⟨"auto", [], some 0, false⟩ = "groq/llama-3.3-70b"
    ∧ chat_completions (fun _ => Except.ok "resp") (fun p => p == "groq") tables0 none
        ⟨"auto", [], some 0, false⟩ = (Except.ok "resp", ["groq/llama-3.3-70b"]) :=
  have h := claim10_auto_route_default tables0 none ⟨"auto", [], some 0, false⟩
    (fun _ => Except.ok "resp") (fun p => p == "groq") "resp" (by decide) (by decide) rfl rfl
  ⟨by decide, h.1, h.2⟩

/-! ### C5 -/

/-- C5 counterexample: a request with `budget_cap = 0` — far below the
positive estimated cost of its explicitly named model — is dispatched anyway
and succeeds: no budget-cap (or rate-limit) check exists before dispatch, so
no `BudgetExceededError` fails fast. -/
theorem claim5_counterexample :
    chat_completions (fun _ => Except.ok "resp") (fun p => p == "groq") tables0 none
        ⟨"groq/llama-3.3-70b", [⟨"user", "hello"⟩], some 0, false⟩
      = (Except.ok "resp", ["groq/llama-3.3-70b"])
    ∧ (0 : Rat) < estimate_cost "groq/llama-3.3-70b" 1000 500 := by
  constructor
  · rfl
  · decide

/-- C5 amended: the only pre-dispatch check the endpoint performs is the
unknown-provider check: when the (possibly auto-routed) model's provider
segment is missing or has no registered adapter, the endpoint returns 400
with no dispatch attempted; there is no budget-cap or rate-limit check in
the dispatch path. -/
theorem claim5_unknown_provider_failfast {α : Type} (dispatch : String → Except ChatErr α)
    (registered : String → Bool) (tables : RouterTables) (ir : Option (String × Rat))
    (req : ChatReq)
    (h : isRegisteredModel registered (chosen_model_id tables ir req) = false) :
    chat_completions dispatch registered tables ir req
      = (Except.error ⟨400, "provider_unavailable"⟩, []) := by
  simp [chat_completions, h]

/-- C5 witness: a request for a model whose provider is not registered gets a
400 and no dispatch. -/
theorem claim5_unknown_provider_failfast_witness :
    isRegisteredModel (fun p => p == "groq") (chosen_model_id tables0 none
        ⟨"openai/gpt-4o", [], none, false⟩) = false
    ∧ chat_completions (fun _ => Except.ok "resp") (fun p => p == "groq") tables0 none
        ⟨"openai/gpt-4o", [], none, false⟩
      = (Except.error ⟨400, "provider_unavailable"⟩, []) :=
  ⟨by decide, claim5_unknown_provider_failfast _ _ _ _ _ (by decide)⟩

/-! ### Fallback-walk lemmas shared by C4 and C6 -/

/-- `_try_fallback`'s loop equals the plain one-dispatch-per-candidate walk
over the chain with the just-failed model and unregistered-provider entries
filtered out. -/
theorem fallback_walk_filter {α : Type} (dispatch : String → Except ChatErr α)
    (registered : String → Bool) (failed : String) :
    ∀ l, fallback_walk dispatch registered failed l
      = walk_each dispatch
          (l.filter (fun c => !(c == failed) && isRegisteredModel registered c)) := by
  intro l
  induction l with
  | nil => rfl
  | cons m rest ih =>
    cases hm : m == failed with
    | true => simp [fallback_walk, List.filter_cons, hm, ih]
    | false =>
      cases hr : isRegisteredModel registered m with
      | true =>
        cases hd : dispatch m with
        | ok r => simp [fallback_walk, walk_each, List.filter_cons, hm, hr, hd]
        | error e => simp [fallback_walk, walk_each, List.filter_cons, hm, hr, hd, ih]
      | false => simp [fallback_walk, List.filter_cons, hm, hr, ih]

/-- The models `walk_each` dispatches form a prefix of its candidate list, so
each candidate is dispatched at most once and the walk stops at the first
success. -/
theorem walk_each_take {α : Type} (dispatch : String → Except ChatErr α) :
    ∀ l : List String, ∃ k, (walk_each dispatch l).2 = l.take k := by
  intro l
  induction l with
  | nil => exact ⟨0, rfl⟩
  | cons m rest ih =>
    cases hd : dispatch m with
    | ok r => exact ⟨1, by simp [walk_each, hd]⟩
    | error e =>
      obtain ⟨k, hk⟩ := ih
      exact ⟨k + 1, by simp [walk_each, hd, hk]⟩

/-! ### C6 -/

/-- C6 counterexample: the primary model fails with "E1" and every fallback
candidate fails with "E2"; on exhaustion the endpoint surfaces the ORIGINAL
error "E1" (fallback errors are swallowed by `except Exception: continue`),
not the last error "E2" as the claim states. -/
theorem claim6_counterexample :
    chat_completions
        (fun c => if c == "openai/gpt-4o-mini"
          then Except.error (ChatErr.providerError 500 true "E1")
          else Except.error (ChatErr.providerError 500 true "E2"))
        (fun _ => true) tables0 none ⟨"openai/gpt-4o-mini", [⟨"user", "hello"⟩], none, false⟩
      = ((Except.error ⟨502, "E1"⟩ : Except HttpError String),
         ["openai/gpt-4o-mini", "anthropic/claude-haiku", "groq/llama-3.3-70b",
          "deepseek/deepseek-v3"])
    ∧ "E1" ≠ "E2" :=
  ⟨rfl, by decide⟩

/-- C6 amended: on a failed dispatch with a provider error, the endpoint
walks the fallback chain with the failed model and unregistered providers
skipped, dispatching the eligible candidates in order — at most once each (a
prefix of the eligible list) — stopping at the first success; on exhaustion
it surfaces the ORIGINAL dispatch's error message as a 502 (errors of the
fallback attempts themselves are discarded). -/
theorem claim6_fallback_chain_walk {α : Type} (dispatch : String → Except ChatErr α)
    (registered : String → Bool) (tables : RouterTables) (ir : Option (String × Rat))
    (req : ChatReq) (s : Nat) (rb : Bool) (m : String) (E : List String)
    (hreg : isRegisteredModel registered (chosen_model_id tables ir req) = true)
    (hdisp : dispatch (chosen_model_id tables ir req)
        = Except.error (ChatErr.providerError s rb m))
    (hE : E = ((route tables req.messages req.budget_cap none ir).1.fallback_chain).filter
        (fun c => !(c == chosen_model_id tables ir req) && isRegisteredModel registered c)) :
    (chat_completions dispatch registered tables ir req
      = match walk_each dispatch E with
        | (some r, att) => (Except.ok r, chosen_model_id tables ir req :: att)
        | (none, att) => (Except.error ⟨502, m⟩, chosen_model_id tables ir req :: att))
    ∧ ∃ k, (walk_each dispatch E).2 = E.take k := by
  constructor
  · have hfb : try_fallback dispatch registered tables ir (chosen_model_id tables ir req)
        req.messages req.budget_cap = walk_each dispatch E := by
      rw [try_fallback, fallback_walk_filter, hE]
    simp only [chat_completions, hreg, if_true, hdisp, hfb]
    rcases hw : walk_each dispatch E with ⟨a, att⟩
    cases a <;> simp [hw]
  · exact walk_each_take dispatch E

/-- C6 witness: primary fails, the first eligible candidate fails, the second
succeeds; the endpoint returns the second candidate's response after exactly
three dispatches. -/
theorem claim6_fallback_chain_walk_witness :
    chat_completions
        (fun c => if c == "openai/gpt-4o-mini"
          then Except.error (ChatErr.providerError 500 true "E0")
          else if c == "groq/llama-3.3-70b" then Except.ok "R"
          else Except.error (ChatErr.providerError 500 true "E2"))
        (fun _ => true) tables0 none ⟨"openai/gpt-4o-mini", [⟨"user", "hello"⟩], none, false⟩
      = (Except.ok "R",
         ["openai/gpt-4o-mini", "anthropic/claude-haiku", "groq/llama-3.3-70b"]) := by
  have h := claim6_fallback_chain_walk
    (fun c => if c == "openai/gpt-4o-mini"
      then Except.error (ChatErr.providerError 500 true "E0")
      else if c == "groq/llama-3.3-70b" then Except.ok "R"
      else Except.error (ChatErr.providerError 500 true "E2"))
    (fun _ => true) tables0 none ⟨"openai/gpt-4o-mini", [⟨"user", "hello"⟩], none, false⟩
    500 true "E0" ["anthropic/claude-haiku", "groq/llama-3.3-70b", "deepseek/deepseek-v3"]
    (by decide) rfl (by decide)
  exact h.1.trans rfl

/-! ### C4 -/

/-- C4 counterexample: the primary dispatch fails with a NON-retryable 400
provider error, yet the endpoint walks the fallback chain and returns the
first fallback candidate's response instead of surfacing the 400
immediately — the code never consults retryability. -/
theorem claim4_counterexample :
    chat_completions
        (fun c => if c == "openai/gpt-4o"
          then Except.error (ChatErr.providerError 400 false "bad request")
          else Except.ok "fallback-resp")
        (fun _ => true) tables0 none ⟨"openai/gpt-4o", [⟨"user", "hello"⟩], none, false⟩
      = ((Except.ok "fallback-resp" : Except HttpError String),
         ["openai/gpt-4o", "openai/gpt-4o-mini"]) := rfl

/-- C4 amended: the only dispatch errors surfaced immediately without walking
the fallback chain are missing-key `ValueError`s (mapped to 401, exactly one
dispatch); a non-retryable provider error (e.g. a 400) instead triggers the
same fallback walk as a retryable one, its error surfacing as a 502 only if
the walk exhausts the chain. -/
theorem claim4_error_surfacing {α : Type} (dispatch : String → Except ChatErr α)
    (registered : String → Bool) (tables : RouterTables) (ir : Option (String × Rat))
    (req : ChatReq) (s : Nat) (m : String)
    (hreg : isRegisteredModel registered (chosen_model_id tables ir req) = true) :
    (dispatch (chosen_model_id tables ir req) = Except.error (ChatErr.valueError m) →
      chat_completions dispatch registered tables ir req
        = (Except.error ⟨401, m⟩, [chosen_model_id tables ir req]))
    ∧ (dispatch (chosen_model_id tables ir req)
          = Except.error (ChatErr.providerError s false m) →
      chat_completions dispatch registered tables ir req
        = (match try_fallback dispatch registered tables ir (chosen_model_id tables ir req)
              req.messages req.budget_cap with
           | (some r, att) => (Except.ok r, chosen_model_id tables ir req :: att)
           | (none, att) => (Except.error ⟨502, m⟩, chosen_model_id tables ir req :: att))) := by
  constructor
  · intro hd
    simp only [chat_completions, hreg, if_true, hd]
  · intro hd
    simp only [chat_completions, hreg, if_true, hd]
    rcases hw : try_fallback dispatch registered tables ir (chosen_model_id tables ir req)
      req.messages req.budget_cap with ⟨a, att⟩
    cases a <;> simp [hw]

/-- C4 witness: a missing-key `ValueError` is surfaced as a 401 after exactly
one dispatch, with no fallback attempt. -/
theorem claim4_error_surfacing_witness :
    chat_completions
        (fun _ => (Except.error (ChatErr.valueError "no key") : Except ChatErr String))
        (fun _ => true) tables0 none ⟨"groq/llama-3.3-70b", [], none, false⟩
      = (Except.error ⟨401, "no key"⟩, ["groq/llama-3.3-70b"]) :=
  (claim4_error_surfacing
    (fun _ => (Except.error (ChatErr.valueError "no key") : Except ChatErr String))
    (fun _ => true) tables0 none ⟨"groq/llama-3.3-70b", [], none, false⟩ 0 "no key"
    (by decide)).1 rfl

/-! ### C9 -/

/-- Reading back the bucket that `set_bucket` wrote yields the written list
(the two functions dispatch on the difficulty key identically, including the
default-to-medium case). -/
theorem get_set_bucket (t : RouterTables) (d : String) (l : List String) :
    get_models_by_difficulty (set_bucket t d l) d = l := by
  unfold get_models_by_difficulty set_bucket
  split_ifs <;> rfl

/-- Writing the same bucket twice keeps only the last write. -/
theorem set_set_bucket (t : RouterTables) (d : String) (l l' : List String) :
    set_bucket (set_bucket t d l) d l' = set_bucket t d l' := by
  unfold set_bucket
  split_ifs <;> rfl

/-- The `prefer` reordering is idempotent: re-sorting an already sorted
candidate list changes nothing (stable sorts fix their own output). -/
theorem applyPrefer_idem (prefer : Option String) (l : List String) :
    applyPrefer prefer (applyPrefer prefer l) = applyPrefer prefer l := by
  by_cases h1 : prefer = some "speed"
  · simp only [applyPrefer, h1, if_pos]
    exact (List.sorted_insertionSort speedRel l).insertionSort_eq
  · by_cases h2 : prefer = some "quality"
    · simp only [applyPrefer, h1, h2]
      exact (List.sorted_insertionSort qualityRel l).insertionSort_eq
    · by_cases h3 : prefer = some "cost"
      · simp only [applyPrefer, h1, h2, h3]
        exact (List.sorted_insertionSort costRel l).insertionSort_eq
      · simp [applyPrefer, h1, h2, h3]

/-- C9: `route` is deterministic — calling it a second time with the same
message list, budget cap, prefer value and intent-detector result, on the
table state left behind by the first call (which subsumes the unchanged-table
case, since a call without an in-place sort leaves the tables untouched),
returns the identical RoutingDecision and the identical table state. -/
theorem claim9_route_deterministic (tables : RouterTables) (messages : List ChatMessage)
    (budget_cap : Option Rat) (prefer : Option String) (ir : Option (String × Rat)) :
    route (route tables messages budget_cap prefer ir).2 messages budget_cap prefer ir
      = route tables messages budget_cap prefer ir := by
  cases budget_cap with
  | some cap => rfl
  | none =>
    cases hs : sortsInPlace prefer with
    | false => simp only [route, hs, Bool.false_eq_true, if_false]
    | true =>
      simp only [route, hs, if_true]
      rw [get_set_bucket, applyPrefer_idem, set_set_bucket]

end TokenRouter
